import Mathlib

/-!
Verification development for the scss-forge AST / SCSS generator module
(`src/unnamed/part_002` of the draconic repository).

The module declares one node type per SCSS construct, each with a field
schema (used at construction time) and an emission routine
`generate(printer, node, parent)` (used at generation time).  The emission
routines are embedded below as the mutually recursive function `print`.
The printer and the schema-validation machinery live in files that are not
part of the sources (`./defineType`, `./assert`); those are modelled from
the specification and carry `Modelled from the spec:` doc comments.
-/

namespace ScssForge

/-- Two-space indentation text for the given nesting depth. -/
def indentStr (n : Nat) : String :=
  String.mk (List.replicate (2 * n) ' ')

/-- Modelled from the spec: the Printer (spec section 4.3) is a stateful token
sink owning the accumulated source text, the current indent depth, a
start-of-line flag and a pending coalescing space.  The printer
implementation file is not among the sources under verification. -/
structure Printer where
  code : String
  indent : Nat
  atLineStart : Bool
  pendingSpace : Bool

/-- Modelled from the spec: the fresh printer state a generation call starts from. -/
def Printer.init : Printer := ⟨"", 0, true, false⟩

/-- The text a token is prefixed with: the current indent when the cursor is at
start of line, otherwise a single space when one is pending. -/
def tokPre (p : Printer) : String :=
  if p.atLineStart then indentStr p.indent
  else if p.pendingSpace then " " else ""

/-- Modelled from the spec: `token(value)` appends a literal, applying the
pending indent or space first. -/
def Printer.token (p : Printer) (s : String) : Printer :=
  { p with code := p.code ++ tokPre p ++ s, atLineStart := false, pendingSpace := false }

/-- Modelled from the spec: `space()` requests a single space before the next
token; consecutive requests coalesce and a space pending at a line break or at
the end of output is dropped. -/
def Printer.space (p : Printer) : Printer :=
  { p with pendingSpace := true }

/-- Modelled from the spec: `newline()` terminates the current line; the
indent is applied by the next token. -/
def Printer.newline (p : Printer) : Printer :=
  { p with code := p.code ++ "\n", atLineStart := true, pendingSpace := false }

/-- Modelled from the spec: `maybeNewline()` emits a newline only when the
cursor is not already at start of line. -/
def Printer.maybeNewline (p : Printer) : Printer :=
  if p.atLineStart then p else p.newline

/-- Modelled from the spec: `blockStart(open)` separates the opening delimiter
with a space, increments the indent depth and starts a fresh line. -/
def Printer.blockStart (p : Printer) (tok : String) : Printer :=
  let q := (p.space).token tok
  Printer.newline { q with indent := q.indent + 1 }

/-- Modelled from the spec: `blockEnd(close)` decrements the indent depth,
moves to a fresh line unless already there, and emits the closing delimiter. -/
def Printer.blockEnd (p : Printer) (tok : String) : Printer :=
  (Printer.maybeNewline { p with indent := p.indent - 1 }).token tok

/-- The AST node variants of the module, with the fields their emission
routines and schemas use.  A JS node is a tagged record; fields holding a
single child, a list of children or an optional list are embedded with the
corresponding Lean types.  `Comment.value` is `Option String` (`none` models
the JS `undefined`/`null` cases the routine checks for), and
`Declaration.value` is `String ⊕ Node` mirroring its two allowed shapes. -/
inductive Node where
  | Comment (value : Option String)
  | Identifier (name : String)
  | BlockStatement (body : List Node)
  | SassBoolean (value : Bool)
  | SassColor (value : String)
  | SassFunction (id : Node) (params : Option (List Node)) (body : Node)
  | SassList (elements : List Node)
  | SassMap (properties : List Node)
  | SassMapProperty (key : Node) (value : Node) (quoted : Option Bool)
  | SassMixin (id : Node) (params : Option (List Node)) (body : Node)
  | SassNumber (value : Int)
  | SassString (value : String)
  | SassValue (value : String)
  | SassFunctionCall (id : Node) (params : Option (List Node))
  | SassMixinCall (id : Node) (params : Option (List Node)) (body : Option Node)
  | Rule (declarations : List Node) (selectors : List String)
  | Declaration (property : String) (value : String ⊕ Node)
  | AtRule (name : String) (media : String) (children : List Node)
  | AtContent
  | AtReturn (argument : Node)
  | Assignment (id : Node) (init : Node) (default : Option Bool) (global : Option Bool)
  | AssignmentPattern (left : Node) (right : Node)
  | RestPattern (id : Node)
  | SassImport (path : String)
  | SassModule (path : String)
  | SassForward (path : String)
  | IfStatement (test : Node) (consequent : Option Node) (alternate : Option Node)
  | LogicalExpression (left : Node) (operator : String) (right : Node)
  | CallExpression (callee : Node) (arguments : Option (List Node))
  | Newline
  | StyleSheet (children : List Node)

/-- The `type` tag of a node, as compared by the emission routines
(`parent.type === SomeType.type`). -/
def Node.type : Node → String
  | .Comment _ => "Comment"
  | .Identifier _ => "Identifier"
  | .BlockStatement _ => "BlockStatement"
  | .SassBoolean _ => "SassBoolean"
  | .SassColor _ => "SassColor"
  | .SassFunction _ _ _ => "SassFunction"
  | .SassList _ => "SassList"
  | .SassMap _ => "SassMap"
  | .SassMapProperty _ _ _ => "SassMapProperty"
  | .SassMixin _ _ _ => "SassMixin"
  | .SassNumber _ => "SassNumber"
  | .SassString _ => "SassString"
  | .SassValue _ => "SassValue"
  | .SassFunctionCall _ _ => "SassFunctionCall"
  | .SassMixinCall _ _ _ => "SassMixinCall"
  | .Rule _ _ => "Rule"
  | .Declaration _ _ => "Declaration"
  | .AtRule _ _ _ => "AtRule"
  | .AtContent => "AtContent"
  | .AtReturn _ => "AtReturn"
  | .Assignment _ _ _ _ => "Assignment"
  | .AssignmentPattern _ _ => "AssignmentPattern"
  | .RestPattern _ => "RestPattern"
  | .SassImport _ => "SassImport"
  | .SassModule _ => "SassModule"
  | .SassForward _ => "SassForward"
  | .IfStatement _ _ _ => "IfStatement"
  | .LogicalExpression _ _ _ => "LogicalExpression"
  | .CallExpression _ _ => "CallExpression"
  | .Newline => "Newline"
  | .StyleSheet _ => "StyleSheet"

mutual
/-- Structural equality test on nodes.  The JS routines compare nodes with
`===` (object identity); a tree in which all sibling nodes are distinct
objects is modelled faithfully by value equality. -/
def nbeq : Node → Node → Bool
  | .Comment a, .Comment b => a == b
  | .Identifier a, .Identifier b => a == b
  | .BlockStatement a, .BlockStatement b => nbeqL a b
  | .SassBoolean a, .SassBoolean b => a == b
  | .SassColor a, .SassColor b => a == b
  | .SassFunction i ps b, .SassFunction i2 ps2 b2 => nbeq i i2 && nbeqOL ps ps2 && nbeq b b2
  | .SassList a, .SassList b => nbeqL a b
  | .SassMap a, .SassMap b => nbeqL a b
  | .SassMapProperty k v q, .SassMapProperty k2 v2 q2 => nbeq k k2 && nbeq v v2 && q == q2
  | .SassMixin i ps b, .SassMixin i2 ps2 b2 => nbeq i i2 && nbeqOL ps ps2 && nbeq b b2
  | .SassNumber a, .SassNumber b => a == b
  | .SassString a, .SassString b => a == b
  | .SassValue a, .SassValue b => a == b
  | .SassFunctionCall i ps, .SassFunctionCall i2 ps2 => nbeq i i2 && nbeqOL ps ps2
  | .SassMixinCall i ps b, .SassMixinCall i2 ps2 b2 => nbeq i i2 && nbeqOL ps ps2 && nbeqO b b2
  | .Rule d s, .Rule d2 s2 => nbeqL d d2 && s == s2
  | .Declaration pr v, .Declaration pr2 v2 =>
      pr == pr2 &&
        (match v, v2 with
         | .inl s, .inl s2 => s == s2
         | .inr n, .inr n2 => nbeq n n2
         | _, _ => false)
  | .AtRule n m c, .AtRule n2 m2 c2 => n == n2 && m == m2 && nbeqL c c2
  | .AtContent, .AtContent => true
  | .AtReturn a, .AtReturn b => nbeq a b
  | .Assignment i n d g, .Assignment i2 n2 d2 g2 => nbeq i i2 && nbeq n n2 && d == d2 && g == g2
  | .AssignmentPattern l r, .AssignmentPattern l2 r2 => nbeq l l2 && nbeq r r2
  | .RestPattern a, .RestPattern b => nbeq a b
  | .SassImport a, .SassImport b => a == b
  | .SassModule a, .SassModule b => a == b
  | .SassForward a, .SassForward b => a == b
  | .IfStatement t c a, .IfStatement t2 c2 a2 => nbeq t t2 && nbeqO c c2 && nbeqO a a2
  | .LogicalExpression l o r, .LogicalExpression l2 o2 r2 => nbeq l l2 && o == o2 && nbeq r r2
  | .CallExpression c a, .CallExpression c2 a2 => nbeq c c2 && nbeqOL a a2
  | .Newline, .Newline => true
  | .StyleSheet a, .StyleSheet b => nbeqL a b
  | _, _ => false
termination_by structural a _ => a

/-- Equality test for node lists. -/
def nbeqL : List Node → List Node → Bool
  | [], [] => true
  | x :: xs, y :: ys => nbeq x y && nbeqL xs ys
  | _, _ => false
termination_by structural a _ => a

/-- Equality test for optional nodes. -/
def nbeqO : Option Node → Option Node → Bool
  | none, none => true
  | some a, some b => nbeq a b
  | _, _ => false
termination_by structural a _ => a

/-- Equality test for optional node lists. -/
def nbeqOL : Option (List Node) → Option (List Node) → Bool
  | none, none => true
  | some a, some b => nbeqL a b
  | _, _ => false
termination_by structural a _ => a
end

/-- The fixed parent-variant set under which an `Identifier` prints with a
leading `$` (the eight `parent.type` comparisons of the Identifier routine). -/
def isSigilParent (par : Node) : Bool :=
  par.type == "Assignment" || par.type == "AssignmentPattern" ||
  par.type == "CallExpression" || par.type == "LogicalExpression" ||
  par.type == "SassMixin" || par.type == "SassList" ||
  par.type == "RestPattern" || par.type == "SassFunction"

/-- Whether a node is an `Assignment` (the `node.type === Assignment.type`
filter of the grouped-assignment heuristic). -/
def isAssignmentType (n : Node) : Bool :=
  n.type == "Assignment"

/-- The `body` field of a node when it holds an array of statements.  Only
`BlockStatement` has an array-valued `body`; the node-valued `body` fields of
functions, mixins and mixin calls have no `indexOf` and are excluded. -/
def Node.bodyList : Node → Option (List Node)
  | .BlockStatement b => some b
  | _ => none

/-- The statement collection `parent.children || parent.body` consulted by the
grouped-assignment heuristic: the `children` array of a stylesheet or at-rule,
else the `body` array of a block. -/
def Node.collection : Node → Option (List Node)
  | .StyleSheet cs => some cs
  | .AtRule _ _ cs => some cs
  | .BlockStatement b => some b
  | _ => none

/-- JS `Array.prototype.indexOf` with a running index: the index of the first
match, or `-1` when absent. -/
def jsIndexOfAux (n : Node) : List Node → Int → Int
  | [], _ => -1
  | x :: xs, i => if nbeq x n then i else jsIndexOfAux n xs (i + 1)

/-- JS `array.indexOf(node)`: index of the first occurrence, `-1` if absent. -/
def jsIndexOf (xs : List Node) (n : Node) : Int :=
  jsIndexOfAux n xs 0

/-- The test `parent?.body?.indexOf(node) === 0` guarding the leading
`maybeNewline` of `@content` / `@return` statements: true only when the parent
has an array-valued `body` whose first element is the node. -/
def bodyIndexIsZero (parent : Option Node) (node : Node) : Bool :=
  match parent with
  | none => false
  | some par =>
      match par.bodyList with
      | none => false
      | some [] => false
      | some (x :: _) => nbeq x node

/-- The grouped-assignment heuristic: after printing `;`, an `Assignment`
appends an extra newline when the parent holds a collection of more than one
sibling and the node is the only assignment of the collection or
`indexOf` places it last among the filtered assignments. -/
def assignmentExtraNewline (parent : Option Node) (node : Node) : Bool :=
  match parent with
  | none => false
  | some par =>
      match par.collection with
      | none => false
      | some coll =>
          if coll.length > 1 then
            let assignments := coll.filter isAssignmentType
            assignments.length == 1 ||
              jsIndexOf assignments node == (assignments.length : Int) - 1
          else false

/-- JS `value.split(sep)` restricted to a single-character separator, running
over the character list. -/
def splitLinesAux (acc : List Char) : List Char → List String
  | [] => [String.mk acc]
  | c :: cs =>
      if c = '\n' then String.mk acc :: splitLinesAux [] cs
      else splitLinesAux (acc ++ [c]) cs

/-- JS `value.split('\n')`. -/
def splitLines (s : String) : List String :=
  splitLinesAux [] s.data

/-- JS `array.join(sep)`. -/
def joinSep (sep : String) : List String → String
  | [] => ""
  | [s] => s
  | s :: y :: rest => s ++ sep ++ joinSep sep (y :: rest)

/-- The Comment emission loop: each line printed as `// ` followed by the line
text, with a newline between lines but not after the last. -/
def printCommentLines (p : Printer) : List String → Printer
  | [] => p
  | [l] => (p.token "// ").token l
  | l :: y :: rest => printCommentLines (((p.token "// ").token l).newline) (y :: rest)

/-- No per-element preamble in a sibling loop. -/
def noPre : Node → Printer → Printer :=
  fun _ p => p

/-- The call-argument preamble of `SassFunctionCall` / `SassMixinCall`: a `$`
sigil before a parameter that is an `Identifier`. -/
def dollarPre : Node → Printer → Printer :=
  fun param p => if param.type == "Identifier" then p.token "$" else p

/-- Separator `,` + space between arguments and list elements. -/
def sepCommaSpace : Printer → Printer :=
  fun p => (p.token ",").space

/-- Separator `,` + newline between map properties. -/
def sepCommaNewline : Printer → Printer :=
  fun p => (p.token ",").newline

mutual
/-- The generator dispatch `printer.print(node, parent)`: runs the emission
routine of the node variant, threading the printer state.  Each branch is the
direct embedding of the corresponding routine of the source module. -/
def print (p : Printer) : Node → Option Node → Printer
  | .Comment value, _ =>
      match value with
      | none => p
      | some s => if s = "" then p else printCommentLines p (splitLines s)
  | .Identifier name, parent =>
      let q := match parent with
        | some par => if isSigilParent par then p.token "$" else p
        | none => p
      q.token name
  | .BlockStatement body, _ =>
      (printSeq (p.blockStart "\x7b") body (some (.BlockStatement body)) noPre
        Printer.newline).blockEnd "\x7d"
  | .SassBoolean b, _ => p.token (if b then "true" else "false")
  | .SassColor v, _ => p.token v
  | .SassFunction id params body, parent =>
      let q := (p.token "@function").space
      let q := print q id parent
      let q := q.token "("
      let q := match params with
        | some ps => printSeq q ps (some (.SassFunction id params body)) noPre sepCommaSpace
        | none => q
      print ((q.token ")").space) body parent
  | .SassList elements, _ =>
      (printSeq (p.token "(") elements (some (.SassList elements)) noPre
        sepCommaSpace).token ")"
  | .SassMap properties, _ =>
      (printSeq (p.blockStart "(") properties none noPre sepCommaNewline).blockEnd ")"
  | .SassMapProperty key value quoted, _ =>
      let q := if quoted = some true
        then (print (p.token "\x27") key (some (.SassMapProperty key value quoted))).token "\x27"
        else print p key (some (.SassMapProperty key value quoted))
      print ((q.token ":").space) value (some (.SassMapProperty key value quoted))
  | .SassMixin id params body, parent =>
      let q := (p.token "@mixin").space
      let q := print q id parent
      let q := q.token "("
      let q := match params with
        | some ps => printSeq q ps (some (.SassMixin id params body)) noPre sepCommaSpace
        | none => q
      print ((q.token ")").space) body parent
  | .SassNumber v, _ => p.token (toString v)
  | .SassString v, _ => p.token ("\x27" ++ v ++ "\x27")
  | .SassValue v, _ => p.token v
  | .SassFunctionCall id params, _ =>
      let q := print p.space id none
      let q := q.token "("
      let q := match params with
        | some ps => printSeq q ps (some (.SassFunctionCall id params)) dollarPre sepCommaSpace
        | none => q
      q.token ")"
  | .SassMixinCall id params body, _ =>
      let q := (p.token "@include").space
      let q := print q id none
      let q := q.token "("
      let q := match params with
        | some ps => printSeq q ps (some (.SassMixinCall id params body)) dollarPre sepCommaSpace
        | none => q
      let q := q.token ")"
      let q := match body with
        | some b => print q b (some (.SassMixinCall id params body))
        | none => q
      q.token ";"
  | .Rule declarations selectors, _ =>
      let q := ((p.token (joinSep ", " selectors)).space).blockStart "\x7b"
      (printSeq q declarations (some (.Rule declarations selectors)) noPre
        Printer.newline).blockEnd "\x7d"
  | .Declaration property value, _ =>
      let q := ((p.token property).token ":").space
      let q := match value with
        | .inl s => q.token s
        | .inr n => print q n none
      q.token ";"
  | .AtRule name media children, _ =>
      let q := ((p.token ("@" ++ name)).space.token media).space
      if children.length > 0 then
        (printSeq (q.blockStart "\x7b") children (some (.AtRule name media children)) noPre
          Printer.newline).blockEnd "\x7d"
      else q
  | .AtContent, parent =>
      let q := if bodyIndexIsZero parent .AtContent then p else p.maybeNewline
      q.token "@content;"
  | .AtReturn argument, parent =>
      let q := if bodyIndexIsZero parent (.AtReturn argument) then p else p.maybeNewline
      (print ((q.token "@return").space) argument (some (.AtReturn argument))).token ";"
  | .Assignment id init default global, parent =>
      let q := print p id (some (.Assignment id init default global))
      let q := (q.token ":").space
      let q := print q init (some (.Assignment id init default global))
      let q := if default = some true then
          (if global = some true then ((q.space).token "!default").space
           else (q.space).token "!default")
        else q
      let q := if global = some true then q.token "!global" else q
      let q := q.token ";"
      if assignmentExtraNewline parent (.Assignment id init default global) then q.newline else q
  | .AssignmentPattern left right, _ =>
      let q := print p left (some (.AssignmentPattern left right))
      print ((q.token ":").space) right (some (.AssignmentPattern left right))
  | .RestPattern id, parent =>
      (print p id parent).token "..."
  | .SassImport path, _ =>
      (((p.token "@import").space).token ("\x27" ++ path ++ "\x27")).token ";"
  | .SassModule path, _ =>
      (((p.token "@use").space).token ("\x27" ++ path ++ "\x27")).token ";"
  | .SassForward path, _ =>
      (((p.token "@forward").space).token ("\x27" ++ path ++ "\x27")).token ";"
  | .IfStatement test consequent alternate, parent =>
      let q := match parent with
        | some par => if par.type == "IfStatement" then (p.space).token "if" else p.token "@if"
        | none => p.token "@if"
      let q := q.space
      let q := print q test (some (.IfStatement test consequent alternate))
      let q := match consequent with
        | some c => print q c (some (.IfStatement test consequent alternate))
        | none => q
      match alternate with
      | some a => print (q.token "@else") a (some (.IfStatement test consequent alternate))
      | none => q
  | .LogicalExpression left operator right, _ =>
      let q := print p left (some (.LogicalExpression left operator right))
      let q := ((q.space).token operator).space
      print q right (some (.LogicalExpression left operator right))
  | .CallExpression callee arguments, _ =>
      let q := print p callee none
      let q := q.token "("
      let q := match arguments with
        | some args => printSeq q args (some (.CallExpression callee arguments)) noPre sepCommaSpace
        | none => q
      q.token ")"
  | .Newline, _ => p.newline
  | .StyleSheet children, _ =>
      printSeq p children (some (.StyleSheet children)) noPre Printer.newline

/-- The sibling loop shared by the emission routines: print each element (with
its per-element preamble) against the fixed parent, emitting the separator
between consecutive elements but not after the last. -/
def printSeq (p : Printer) (xs : List Node) (parent : Option Node)
    (pre : Node → Printer → Printer) (sep : Printer → Printer) : Printer :=
  match xs with
  | [] => p
  | [x] => print (pre x p) x parent
  | x :: y :: rest => printSeq (sep (print (pre x p) x parent)) (y :: rest) parent pre sep
end

/-- Modelled from the spec: the top-level entry point accepts a root node and
an optional parent context, drives a fresh printer over the tree and returns
the accumulated text (spec section 6; the entry-point file is not among the
sources under verification). -/
def generate (node : Node) (parent : Option Node) : String :=
  (print Printer.init node parent).code

/-- Modelled from the spec: a JS runtime value as supplied in a constructor
field map — primitive, `null`/`undefined`, an array, or a constructed node
record tagged with its type (spec sections 4.1 and 4.2; the `assert` /
`defineType` files are not among the sources under verification). -/
inductive JSValue where
  | str (s : String)
  | num (n : Int)
  | boolean (b : Bool)
  | null
  | undefined
  | arr (elems : List JSValue)
  | nodeObj (type : String) (fields : List (String × JSValue))

/-- JS `typeof`. -/
def jsTypeOf : JSValue → String
  | .str _ => "string"
  | .num _ => "number"
  | .boolean _ => "boolean"
  | .null => "object"
  | .undefined => "undefined"
  | .arr _ => "object"
  | .nodeObj _ _ => "object"

/-- Whether a value is the JS `undefined`. -/
def isUndefined : JSValue → Bool
  | .undefined => true
  | _ => false

/-- Modelled from the spec: `assertValueType(primitive)` — the value must have
the given primitive `typeof`. -/
def assertValueType (t : String) (v : JSValue) : Bool :=
  jsTypeOf v == t

/-- Modelled from the spec: `assertType(typeDef)` — the value must be a node
whose tag equals the given type tag. -/
def assertType (tag : String) (v : JSValue) : Bool :=
  match v with
  | .nodeObj t _ => t == tag
  | _ => false

/-- Modelled from the spec: `assertAny` — always succeeds. -/
def assertAny (v : JSValue) : Bool :=
  match v with
  | _ => true

/-- Modelled from the spec: `assertOneOf([validators])` — at least one
alternative must accept the value. -/
def assertOneOf (vs : List (JSValue → Bool)) (v : JSValue) : Bool :=
  vs.any (fun f => f v)

/-- Modelled from the spec: `arrayOf(validator)` — the value must be an array
whose every element satisfies the inner validator. -/
def arrayOf (inner : JSValue → Bool) (v : JSValue) : Bool :=
  match v with
  | .arr xs => xs.all inner
  | _ => false

/-- One entry of a type's field schema: field name, optionality, validator. -/
structure FieldSchema where
  name : String
  optional : Bool
  validate : JSValue → Bool

/-- Modelled from the spec: the construction-time error, carrying the type
name, the field name and the offending value. -/
structure SchemaValidationError where
  type : String
  field : String
  value : JSValue

/-- JS property access on a field map: the value under the key, or
`undefined` when the key is absent. -/
def lookupField (fields : List (String × JSValue)) (n : String) : JSValue :=
  match fields with
  | [] => .undefined
  | (k, v) :: rest => if k == n then v else lookupField rest n

/-- Whether a schema entry rejects the supplied field map: its validator is
consulted (absent optional fields are skipped) and fails. -/
def fieldFails (fs : FieldSchema) (fields : List (String × JSValue)) : Bool :=
  let v := lookupField fields fs.name
  if fs.optional && isUndefined v then false else !(fs.validate v)

/-- Modelled from the spec: the constructor derived from a type definition
(`makeInvocableDefinition`) runs every declared validator over the supplied
field map in schema order and fails with a `SchemaValidationError` on the
first violating field, producing the tagged node only when all pass. -/
def constructNode (tname : String) (schema : List FieldSchema)
    (fields : List (String × JSValue)) : Except SchemaValidationError JSValue :=
  match schema with
  | [] => .ok (.nodeObj tname fields)
  | fs :: rest =>
      let v := lookupField fields fs.name
      if fs.optional && isUndefined v then constructNode tname rest fields
      else if fs.validate v then constructNode tname rest fields
      else .error ⟨tname, fs.name, v⟩

/-- The field schema of `SassNumber`: a required `value` of primitive kind
`number`. -/
def SassNumberFields : List FieldSchema :=
  [⟨"value", false, assertValueType "number"⟩]

/-- The field schema of `Rule`: a required `declarations` array of
`Declaration` nodes and a required `selectors` array of strings. -/
def RuleFields : List FieldSchema :=
  [⟨"declarations", false, arrayOf (assertType "Declaration")⟩,
   ⟨"selectors", false, arrayOf (assertValueType "string")⟩]

/-- Whether the parent context is an `IfStatement`. -/
def isIfParentOpt (parent : Option Node) : Bool :=
  match parent with
  | some par => par.type == "IfStatement"
  | none => false

/-- Stated from the claim wording: the node is not the first element of its
parent's `body` array, including when the parent is absent or has no `body`
array. -/
def claimNotFirstInBody (parent : Option Node) (node : Node) : Bool :=
  match parent with
  | none => true
  | some par =>
      match par.bodyList with
      | none => true
      | some [] => true
      | some (x :: _) => !(nbeq x node)

/-- Whether a list of siblings beq-contains the node. -/
def containsBeq : List Node → Node → Bool
  | [], _ => false
  | x :: xs, n => nbeq x n || containsBeq xs n

/-- Whether the first beq-occurrence of the node in the list is its final
position: every element but the last differs from the node and the last
equals it. -/
def isLastOccurrenceBeq : List Node → Node → Bool
  | [], _ => false
  | [x], n => nbeq x n
  | x :: y :: rest, n => !(nbeq x n) && isLastOccurrenceBeq (y :: rest) n

/-- Stated from the claim wording: the node sits at the end of a run of
consecutive sibling assignments — some position holds the node, is an
assignment, and is not followed by another assignment. -/
def isLastOfRun : List Node → Node → Bool
  | [], _ => false
  | [x], n => isAssignmentType x && nbeq x n
  | x :: y :: rest, n =>
      (isAssignmentType x && nbeq x n && !(isAssignmentType y)) ||
        isLastOfRun (y :: rest) n

/-- Stated from the claim wording: the trigger the claim gives for the extra
newline — last assignment of a run of sibling assignments, or the only
assignment among the siblings. -/
def claimRunTrigger (siblings : List Node) (node : Node) : Bool :=
  isLastOfRun siblings node || (siblings.filter isAssignmentType).length == 1

theorem indentStr_zero : indentStr 0 = "" := rfl

theorem indentStr_one : indentStr 1 = "  " := rfl

theorem tokPre_token (p : Printer) (s : String) : tokPre (p.token s) = "" := by
  simp [tokPre, Printer.token]

/-- C1: an Identifier prints a `$` sigil exactly under the fixed parent set. -/
theorem claim_C1 :
    (∀ (p : Printer) (name : String) (parent : Option Node),
       (print p (.Identifier name) parent).code
         = p.code ++ tokPre p
             ++ ((if (match parent with
                      | some par => isSigilParent par
                      | none => false) then "$" else "") ++ name))
    ∧ (∀ par : Node, isSigilParent par = true ↔
         par.type ∈ ["Assignment", "AssignmentPattern", "CallExpression",
           "LogicalExpression", "SassMixin", "SassList", "RestPattern", "SassFunction"])
    ∧ generate (.Assignment (.Identifier "x") (.SassNumber 1) none none) none = "$x: 1;"
    ∧ generate (.SassFunction (.Identifier "f") (some [.Identifier "x"])
        (.BlockStatement [])) none = "@function f($x) \x7b\n\x7d"
    ∧ generate (.CallExpression (.Identifier "x") (some [])) none = "x()"
    ∧ generate (.SassFunctionCall (.Identifier "x") (some [])) none = "x()"
    ∧ generate (.SassMixinCall (.Identifier "x") (some []) none) none = "@include x();" := by
  refine ⟨?_, ?_, by decide, by decide, by decide, by decide, by decide⟩
  · intro p name parent
    cases parent with
    | none => simp [print, Printer.token, String.empty_append]
    | some par =>
        by_cases h : isSigilParent par = true
        · simp [print, h, Printer.token, tokPre, String.append_empty,
            String.append_assoc, String.empty_append]
        · simp at h
          simp [print, h, Printer.token, String.empty_append]
  · intro par
    simp [isSigilParent, or_assoc]

/-- C4: generation is a pure function of tree and fresh printer. -/
theorem claim_C4 : ∀ (node : Node) (parent : Option Node),
    generate node parent = generate node parent
      ∧ generate node parent = (print Printer.init node parent).code :=
  fun _ _ => ⟨rfl, rfl⟩

/-- C5: a Rule prints comma-joined selectors and an indented block. -/
theorem claim_C5 :
    generate (.Rule [.Declaration "color" (.inl "red")] [".box"]) none
        = ".box \x7b\n  color: red;\n\x7d"
    ∧ (∀ s1 s2 pr1 v1 pr2 v2 : String,
        generate (.Rule [.Declaration pr1 (.inl v1), .Declaration pr2 (.inl v2)] [s1, s2]) none
          = s1 ++ ", " ++ s2 ++ " " ++ "\x7b" ++ "\n" ++ "  " ++ pr1 ++ ":" ++ " " ++ v1
              ++ ";" ++ "\n" ++ "  " ++ pr2 ++ ":" ++ " " ++ v2 ++ ";" ++ "\n" ++ "\x7d")
    ∧ generate (.Rule [] ["a", "b", "c"]) none = "a, b, c \x7b\n\x7d" := by
  refine ⟨by decide, ?_, by decide⟩
  intro s1 s2 pr1 v1 pr2 v2
  simp [generate, print, printSeq, Printer.init, Printer.token, Printer.space,
    Printer.newline, Printer.blockStart, Printer.blockEnd, Printer.maybeNewline,
    joinSep, noPre, tokPre, indentStr_zero, indentStr_one,
    String.empty_append, String.append_empty, String.append_assoc]

/-- C7: an AtRule opens its block only when it has children. -/
theorem claim_C7 :
    (∀ (p : Printer) (n m : String) (parent : Option Node),
       (print p (.AtRule n m []) parent).code
         = p.code ++ tokPre p ++ ("@" ++ n) ++ " " ++ m)
    ∧ generate (.AtRule "media" "(min-width: 0)" []) none = "@media (min-width: 0)"
    ∧ generate (.AtRule "media" "(min-width: 0)"
        [.Rule [.Declaration "color" (.inl "red")] [".box"]]) none
        = "@media (min-width: 0) \x7b\n  .box \x7b\n    color: red;\n  \x7d\n\x7d" := by
  refine ⟨?_, by decide, by decide⟩
  intro p n m parent
  simp [print, Printer.token, Printer.space, tokPre,
    String.append_empty, String.append_assoc]

/-- C9: in a CallExpression the callee Identifier prints bare, the argument sigiled. -/
theorem claim_C9 :
    (∀ (p : Printer) (parent : Option Node) (x y : String),
       (print p (.CallExpression (.Identifier x) (some [.Identifier y])) parent).code
         = p.code ++ tokPre p ++ x ++ "(" ++ "$" ++ y ++ ")")
    ∧ generate (.CallExpression (.Identifier "width")
        (some [.Identifier "width", .Identifier "height"])) none
        = "width($width, $height)" := by
  refine ⟨?_, by decide⟩
  intro p parent x y
  simp [print, printSeq, Printer.token, Printer.space, noPre, isSigilParent, Node.type,
    tokPre_token, tokPre, String.append_empty, String.append_assoc]

theorem splitLinesAux_ne_nil : ∀ (cs acc : List Char), splitLinesAux acc cs ≠ [] := by
  intro cs
  induction cs with
  | nil => intro acc; simp [splitLinesAux]
  | cons c cs ih =>
      intro acc
      rw [splitLinesAux]
      split
      · simp
      · exact ih _

theorem printCommentLines_code : ∀ (lines : List String) (p : Printer),
    lines ≠ [] → p.indent = 0 →
    (printCommentLines p lines).code
      = p.code ++ tokPre p ++ joinSep "\n" (lines.map (fun l => "// " ++ l)) := by
  intro lines
  induction lines with
  | nil => intro p h; exact absurd rfl h
  | cons l rest ih =>
      intro p _ hind
      cases rest with
      | nil =>
          simp [printCommentLines, joinSep, Printer.token, tokPre,
            String.append_empty, String.append_assoc]
      | cons y rest2 =>
          rw [show printCommentLines p (l :: y :: rest2)
                = printCommentLines (((p.token "// ").token l).newline) (y :: rest2) from rfl]
          rw [ih _ (by simp) (by simp [Printer.newline, Printer.token, hind])]
          simp [Printer.newline, Printer.token, tokPre, hind, joinSep, indentStr_zero,
            String.append_empty, String.append_assoc, String.empty_append]

/-- C6: empty or absent comments emit nothing; otherwise one line per input line. -/
theorem claim_C6 :
    (∀ (p : Printer) (parent : Option Node), print p (.Comment none) parent = p)
    ∧ (∀ (p : Printer) (parent : Option Node), print p (.Comment (some "")) parent = p)
    ∧ (∀ s : String, generate (.Comment (some s)) none
        = if s = "" then "" else joinSep "\n" ((splitLines s).map (fun l => "// " ++ l)))
    ∧ generate (.Comment (some "hello\nworld")) none = "// hello\n// world" := by
  refine ⟨?_, ?_, ?_, by decide⟩
  · intro p parent; simp [print]
  · intro p parent; simp [print]
  · intro s
    by_cases hs : s = ""
    · simp [hs, generate, print, Printer.init]
    · rw [if_neg hs]
      simp only [generate, print, if_neg hs]
      rw [printCommentLines_code (splitLines s) Printer.init
            (by rw [splitLines]; exact splitLinesAux_ne_nil s.data []) rfl]
      simp [Printer.init, tokPre, indentStr_zero, String.empty_append]

/-- C10: the leading conditional newline of at-statements fires exactly when the
node is not the first element of the parent body. -/
theorem claim_C10 :
    (∀ (parent : Option Node) (node : Node),
       (!(bodyIndexIsZero parent node)) = claimNotFirstInBody parent node)
    ∧ (∀ (p : Printer) (parent : Option Node),
       (print p .AtContent parent).code
         = p.code ++ (if (!(bodyIndexIsZero parent .AtContent)) && !p.atLineStart
             then "\n" ++ indentStr p.indent else tokPre p) ++ "@content;")
    ∧ (∀ (p : Printer) (parent : Option Node) (v : String),
       (print p (.AtReturn (.SassValue v)) parent).code
         = p.code ++ (if (!(bodyIndexIsZero parent (.AtReturn (.SassValue v)))) && !p.atLineStart
             then "\n" ++ indentStr p.indent else tokPre p) ++ "@return" ++ " " ++ v ++ ";")
    ∧ (print ⟨"x", 0, false, false⟩ .AtContent none).code = "x\n@content;"
    ∧ (print ⟨"x", 0, false, false⟩ .AtContent (some (.BlockStatement [.AtContent]))).code
        = "x@content;"
    ∧ (print ⟨"x", 0, false, false⟩ (.AtReturn (.SassNumber 3)) none).code = "x\n@return 3;" := by
  refine ⟨?_, ?_, ?_, by decide, by decide, by decide⟩
  · intro parent node
    cases parent with
    | none => simp [bodyIndexIsZero, claimNotFirstInBody]
    | some par =>
        cases hb : par.bodyList with
        | none => simp [bodyIndexIsZero, claimNotFirstInBody, hb]
        | some l => cases l <;> simp [bodyIndexIsZero, claimNotFirstInBody, hb]
  · intro p parent
    cases hg : bodyIndexIsZero parent .AtContent <;> cases hl : p.atLineStart <;>
      simp [print, hg, hl, Printer.maybeNewline, Printer.newline, Printer.token, tokPre,
        String.append_assoc, String.append_empty, String.empty_append]
  · intro p parent v
    cases hg : bodyIndexIsZero parent (.AtReturn (.SassValue v)) <;> cases hl : p.atLineStart <;>
      simp [print, hg, hl, Printer.maybeNewline, Printer.newline, Printer.space, Printer.token,
        tokPre, String.append_assoc, String.append_empty, String.empty_append]

/-- C3: construction fails with a SchemaValidationError on the first violating field. -/
theorem claim_C3 :
    (∀ (tname : String) (schema : List FieldSchema) (fields : List (String × JSValue)),
       constructNode tname schema fields =
         match schema.find? (fun fs => fieldFails fs fields) with
         | some fs => .error ⟨tname, fs.name, lookupField fields fs.name⟩
         | none => .ok (.nodeObj tname fields))
    ∧ constructNode "SassNumber" SassNumberFields [("value", .str "not-a-number")]
        = .error ⟨"SassNumber", "value", .str "not-a-number"⟩
    ∧ constructNode "Rule" RuleFields [("selectors", .arr []), ("declarations", .str "nope")]
        = .error ⟨"Rule", "declarations", .str "nope"⟩ := by
  refine ⟨?_, rfl, rfl⟩
  intro tname schema fields
  induction schema with
  | nil => simp [constructNode, List.find?]
  | cons fs rest ih =>
      by_cases h1 : (fs.optional && isUndefined (lookupField fields fs.name)) = true
      · have hf : fieldFails fs fields = false := by simp [fieldFails, h1]
        simp [constructNode, List.find?, h1, hf, ih]
      · have h1' : (fs.optional && isUndefined (lookupField fields fs.name)) = false := by
          simpa using h1
        by_cases h2 : fs.validate (lookupField fields fs.name) = true
        · have hf : fieldFails fs fields = false := by simp [fieldFails, h1', h2]
          simp [constructNode, List.find?, h1', h2, hf, ih]
        · have h2' : fs.validate (lookupField fields fs.name) = false := by simpa using h2
          have hf : fieldFails fs fields = true := by simp [fieldFails, h1', h2']
          simp [constructNode, List.find?, h1', h2', hf]

/-- C2: root conditionals print `@if`, alternate-branch conditionals print
`if`, and a present alternate is preceded by `@else` and generated with the
conditional as parent, flattening else-if chains. -/
theorem claim_C2 :
    (∀ (p : Printer) (tv : String) (parent : Option Node), isIfParentOpt parent = false →
       (print p (.IfStatement (.SassValue tv) (some (.BlockStatement [])) none) parent).code
         = p.code ++ tokPre p ++ "@if" ++ " " ++ tv ++ " " ++ "\x7b" ++ "\n"
             ++ indentStr p.indent ++ "\x7d")
    ∧ (∀ (p : Printer) (tv : String) (parent : Option Node), isIfParentOpt parent = true →
       (print p (.IfStatement (.SassValue tv) (some (.BlockStatement [])) none) parent).code
         = p.code ++ tokPre (p.space) ++ "if" ++ " " ++ tv ++ " " ++ "\x7b" ++ "\n"
             ++ indentStr p.indent ++ "\x7d")
    ∧ (∀ tv1 tv2 : String,
        generate (.IfStatement (.SassValue tv1) (some (.BlockStatement []))
          (some (.IfStatement (.SassValue tv2) (some (.BlockStatement [])) none))) none
          = "@if" ++ " " ++ tv1 ++ " " ++ "\x7b" ++ "\n" ++ "\x7d" ++ "@else" ++ " "
              ++ "if" ++ " " ++ tv2 ++ " " ++ "\x7b" ++ "\n" ++ "\x7d")
    ∧ generate (.IfStatement (.SassBoolean true) (some (.BlockStatement []))
        (some (.IfStatement (.SassBoolean false) (some (.BlockStatement [])) none))) none
        = "@if true \x7b\n\x7d@else if false \x7b\n\x7d" := by
  refine ⟨?_, ?_, ?_, by decide⟩
  · intro p tv parent h
    cases parent with
    | none =>
        simp [print, printSeq, Printer.token, Printer.space, Printer.blockStart,
          Printer.blockEnd, Printer.maybeNewline, Printer.newline, tokPre, noPre,
          String.append_assoc, String.append_empty, String.empty_append]
    | some par =>
        simp only [isIfParentOpt] at h
        simp [print, printSeq, h, Printer.token, Printer.space, Printer.blockStart,
          Printer.blockEnd, Printer.maybeNewline, Printer.newline, tokPre, noPre,
          String.append_assoc, String.append_empty, String.empty_append]
  · intro p tv parent h
    cases parent with
    | none => simp [isIfParentOpt] at h
    | some par =>
        simp only [isIfParentOpt] at h
        simp [print, printSeq, h, Printer.token, Printer.space, Printer.blockStart,
          Printer.blockEnd, Printer.maybeNewline, Printer.newline, tokPre, noPre,
          String.append_assoc, String.append_empty, String.empty_append]
  · intro tv1 tv2
    simp [generate, print, printSeq, Printer.init, Node.type, Printer.token, Printer.space,
      Printer.blockStart, Printer.blockEnd, Printer.maybeNewline, Printer.newline, tokPre,
      noPre, indentStr_zero, String.append_assoc, String.append_empty, String.empty_append]

/-- Witness for C2 at concrete inputs: a non-conditional parent yields `@if`,
a conditional parent yields bare `if`. -/
theorem claim_C2_witness :
    (print Printer.init (.IfStatement (.SassValue "T") (some (.BlockStatement [])) none)
        (some (.Rule [] []))).code = "@if T \x7b\n\x7d"
    ∧ (print Printer.init (.IfStatement (.SassValue "T") (some (.BlockStatement [])) none)
        (some (.IfStatement (.SassValue "C") none none))).code = "if T \x7b\n\x7d" := by
  constructor
  · exact (claim_C2.1 Printer.init "T" (some (.Rule [] [])) (by decide)).trans (by decide)
  · exact (claim_C2.2.1 Printer.init "T"
      (some (.IfStatement (.SassValue "C") none none)) (by decide)).trans (by decide)

theorem jsIndexOfAux_last : ∀ (xs : List Node) (n : Node) (i : Int),
    containsBeq xs n = true →
    (jsIndexOfAux n xs i == i + (xs.length : Int) - 1) = isLastOccurrenceBeq xs n := by
  intro xs
  induction xs with
  | nil => intro n i h; simp [containsBeq] at h
  | cons x rest ih =>
      intro n i h
      cases rest with
      | nil =>
          simp only [containsBeq, Bool.or_eq_true] at h
          rcases h with h | h
          · simp [jsIndexOfAux, isLastOccurrenceBeq, h]
          · simp [containsBeq] at h
      | cons y rest2 =>
          by_cases hx : nbeq x n = true
          · simp only [jsIndexOfAux, hx, if_pos, isLastOccurrenceBeq, Bool.not_true,
              Bool.false_and]
            rw [beq_eq_false_iff_ne]
            simp only [List.length_cons]
            push_cast
            omega
          · have hx' : nbeq x n = false := by simpa using hx
            have hr : containsBeq (y :: rest2) n = true := by
              simp only [containsBeq, Bool.or_eq_true] at h
              rcases h with h | h
              · exact absurd h hx
              · simpa [containsBeq] using h
            rw [jsIndexOfAux, if_neg (by simp [hx'])]
            rw [show isLastOccurrenceBeq (x :: y :: rest2) n
                  = (!(nbeq x n) && isLastOccurrenceBeq (y :: rest2) n) from rfl]
            rw [hx']
            simp only [Bool.not_false, Bool.true_and]
            have hlen : i + ((x :: y :: rest2).length : Int) - 1
                = (i + 1) + ((y :: rest2).length : Int) - 1 := by
              simp only [List.length_cons]
              push_cast
              omega
            rw [hlen]
            exact ih n (i + 1) hr

/-- C8 counterexample: the first assignment ends a run of sibling assignments
(the claim asks for an extra newline) yet the routine emits none. -/
theorem claim_C8_counterexample :
    claimRunTrigger
        [.Assignment (.Identifier "a") (.SassNumber 1) none none,
         .Rule [] [".r"],
         .Assignment (.Identifier "b") (.SassNumber 2) none none]
        (.Assignment (.Identifier "a") (.SassNumber 1) none none) = true
    ∧ assignmentExtraNewline
        (some (.BlockStatement
          [.Assignment (.Identifier "a") (.SassNumber 1) none none,
           .Rule [] [".r"],
           .Assignment (.Identifier "b") (.SassNumber 2) none none]))
        (.Assignment (.Identifier "a") (.SassNumber 1) none none) = false
    ∧ (print Printer.init (.Assignment (.Identifier "a") (.SassNumber 1) none none)
        (some (.BlockStatement
          [.Assignment (.Identifier "a") (.SassNumber 1) none none,
           .Rule [] [".r"],
           .Assignment (.Identifier "b") (.SassNumber 2) none none]))).code = "$a: 1;" :=
  ⟨by decide, by decide, by decide⟩

/-- C8 (amended): for an assignment contained among its parent's siblings, the
extra newline fires exactly when the collection has more than one element and
the node is the only assignment or the last among all filtered assignments. -/
theorem claim_C8 : ∀ (par : Node) (coll : List Node) (node : Node),
    Node.collection par = some coll →
    containsBeq (coll.filter isAssignmentType) node = true →
    assignmentExtraNewline (some par) node
      = (decide (coll.length > 1)
          && ((coll.filter isAssignmentType).length == 1
              || isLastOccurrenceBeq (coll.filter isAssignmentType) node)) := by
  intro par coll node hcoll hcont
  simp only [assignmentExtraNewline, hcoll]
  by_cases hlen : coll.length > 1
  · rw [if_pos hlen, decide_eq_true hlen, Bool.true_and]
    have h := jsIndexOfAux_last (coll.filter isAssignmentType) node 0 hcont
    simp only [zero_add] at h
    simp only [jsIndexOf]
    rw [h]
  · rw [if_neg hlen]
    have hd : decide (coll.length > 1) = false := by simpa using hlen
    rw [hd, Bool.false_and]

/-- Witness for the amended C8: the second of two sibling assignments is the
last filtered assignment, and the extra newline is emitted. -/
theorem claim_C8_witness :
    containsBeq
        (([Node.Assignment (.Identifier "a") (.SassNumber 1) none none,
           Node.Assignment (.Identifier "b") (.SassNumber 2) none none]).filter isAssignmentType)
        (.Assignment (.Identifier "b") (.SassNumber 2) none none) = true
    ∧ assignmentExtraNewline
        (some (.BlockStatement
          [.Assignment (.Identifier "a") (.SassNumber 1) none none,
           .Assignment (.Identifier "b") (.SassNumber 2) none none]))
        (.Assignment (.Identifier "b") (.SassNumber 2) none none)
        = (decide (([Node.Assignment (.Identifier "a") (.SassNumber 1) none none,
             Node.Assignment (.Identifier "b") (.SassNumber 2) none none]).length > 1)
            && ((([Node.Assignment (.Identifier "a") (.SassNumber 1) none none,
                 Node.Assignment (.Identifier "b") (.SassNumber 2) none none]).filter
                   isAssignmentType).length == 1
                || isLastOccurrenceBeq
                     (([Node.Assignment (.Identifier "a") (.SassNumber 1) none none,
                       Node.Assignment (.Identifier "b") (.SassNumber 2) none none]).filter
                        isAssignmentType)
                     (.Assignment (.Identifier "b") (.SassNumber 2) none none)))
    ∧ (print Printer.init (.Assignment (.Identifier "b") (.SassNumber 2) none none)
        (some (.BlockStatement
          [.Assignment (.Identifier "a") (.SassNumber 1) none none,
           .Assignment (.Identifier "b") (.SassNumber 2) none none]))).code = "$b: 2;\n" :=
  ⟨by decide, claim_C8 _ _ _ rfl (by decide), by decide⟩

end ScssForge
